import Mathlib

/-!
# USB tools: device session and control transfers

A shallow embedding of `cleware.c` (Cleware USB-controlled power switch) and
`control.c` (raw control-message tool).  Both programs talk to the bus through
libusb.  The bus layer is external to the repository, so it is embedded as a
simulated bus: a record of the calls made so far, the set of devices whose
default driver is bound to interface 0, the set of devices whose interface 0 is
claimed, and a status oracle that decides the integer every call returns.
-/

namespace UsbTools

/-! ## The simulated bus layer -/

/-- One call into the bus layer, with the arguments the program passed.  Devices
and handles are identified by the number of the physical device. -/
inductive Call where
  | libusb_get_device_descriptor (dev : Nat)
  | libusb_open (dev : Nat)
  | libusb_close (handle : Nat)
  | libusb_kernel_driver_active (handle iface : Nat)
  | libusb_detach_kernel_driver (handle iface : Nat)
  | libusb_attach_kernel_driver (handle iface : Nat)
  | libusb_get_string_descriptor (handle index langid length : Nat)
  | libusb_get_string_descriptor_ascii (handle index length : Nat)
  | libusb_set_configuration (handle config : Nat)
  | libusb_claim_interface (handle iface : Nat)
  | libusb_release_interface (handle iface : Nat)
  | libusb_set_interface_alt_setting (handle iface alt : Nat)
  | libusb_set_auto_detach_kernel_driver (handle enable : Nat)
  | libusb_control_transfer (handle bmRequestType bRequest wValue wIndex : Nat)
      (data : List Nat) (wLength timeout : Nat)
  deriving DecidableEq, Repr

/-- The fields of `struct libusb_device_descriptor` the programs read. -/
structure DeviceDescriptor where
  idVendor : Nat
  idProduct : Nat
  iSerialNumber : Nat
  iProduct : Nat
  deriving DecidableEq, Repr

/-- A `libusb_device` of the device list: its number and its descriptor. -/
structure Device where
  id : Nat
  desc : DeviceDescriptor
  deriving DecidableEq, Repr

/-- The mutable state of the simulated bus. -/
structure World where
  /-- devices whose default (kernel) driver is bound to interface 0 -/
  bound : List Nat
  /-- devices whose interface 0 is claimed by the program -/
  claimed : List Nat
  /-- every call made so far, oldest first -/
  log : List Call
  deriving DecidableEq, Repr

/-- The behaviour of the simulated bus: the status each call returns, given the
calls made before it, and the byte a one-byte string-descriptor read stores in
the caller's buffer. -/
structure Bus where
  status : List Call → Call → Int
  serial : Nat → Nat

/-- Record a call that changes nothing on the bus but the log. -/
def World.record (bus : Bus) (w : World) (c : Call) : World × Int :=
  ({ w with log := w.log ++ [c] }, bus.status w.log c)

def libusb_get_device_descriptor (bus : Bus) (w : World) (udev : Device) : World × Int :=
  w.record bus (.libusb_get_device_descriptor udev.id)

/-- The handle is written only when the open does not fail. -/
def libusb_open (bus : Bus) (w : World) (udev : Device) : World × Int × Option Nat :=
  let r := w.record bus (.libusb_open udev.id)
  (r.1, r.2, if r.2 < 0 then none else some udev.id)

def libusb_close (w : World) (h : Nat) : World :=
  { w with log := w.log ++ [.libusb_close h] }

/-- Answers 1 when the default driver is bound to the interface, 0 otherwise. -/
def libusb_kernel_driver_active (w : World) (h iface : Nat) : World × Int :=
  ({ w with log := w.log ++ [.libusb_kernel_driver_active h iface] },
    if iface = 0 ∧ h ∈ w.bound then 1 else 0)

/-- A detach that does not fail unbinds the default driver. -/
def libusb_detach_kernel_driver (bus : Bus) (w : World) (h iface : Nat) : World × Int :=
  let c := Call.libusb_detach_kernel_driver h iface
  let s := bus.status w.log c
  ({ bound := if s < 0 ∨ iface ≠ 0 then w.bound else w.bound.filter (fun d => d ≠ h),
     claimed := w.claimed,
     log := w.log ++ [c] }, s)

/-- An attach that does not fail binds the default driver again. -/
def libusb_attach_kernel_driver (bus : Bus) (w : World) (h iface : Nat) : World × Int :=
  let c := Call.libusb_attach_kernel_driver h iface
  let s := bus.status w.log c
  ({ bound := if s < 0 ∨ iface ≠ 0 ∨ h ∈ w.bound then w.bound else h :: w.bound,
     claimed := w.claimed,
     log := w.log ++ [c] }, s)

def libusb_set_configuration (bus : Bus) (w : World) (h config : Nat) : World × Int :=
  w.record bus (.libusb_set_configuration h config)

/-- A claim that does not fail marks the interface as claimed. -/
def libusb_claim_interface (bus : Bus) (w : World) (h iface : Nat) : World × Int :=
  let c := Call.libusb_claim_interface h iface
  let s := bus.status w.log c
  ({ bound := w.bound,
     claimed := if s < 0 ∨ iface ≠ 0 ∨ h ∈ w.claimed then w.claimed else h :: w.claimed,
     log := w.log ++ [c] }, s)

/-- A release that does not fail drops the claim. -/
def libusb_release_interface (bus : Bus) (w : World) (h iface : Nat) : World × Int :=
  let c := Call.libusb_release_interface h iface
  let s := bus.status w.log c
  ({ bound := w.bound,
     claimed := if s < 0 ∨ iface ≠ 0 then w.claimed else w.claimed.filter (fun d => d ≠ h),
     log := w.log ++ [c] }, s)

def libusb_set_interface_alt_setting (bus : Bus) (w : World) (h iface alt : Nat) :
    World × Int :=
  w.record bus (.libusb_set_interface_alt_setting h iface alt)

/-- Reads `length` bytes of a string descriptor; the second component of the
answer is the first byte of the caller's buffer after the call. -/
def libusb_get_string_descriptor (bus : Bus) (w : World) (h index langid length : Nat) :
    World × Int × Nat :=
  let r := w.record bus (.libusb_get_string_descriptor h index langid length)
  (r.1, r.2, bus.serial h % 256)

def libusb_get_string_descriptor_ascii (bus : Bus) (w : World) (h index length : Nat) :
    World × Int :=
  w.record bus (.libusb_get_string_descriptor_ascii h index length)

/-- The blocking control transfer: the answer is the number of bytes
transferred, or a negative status. -/
def libusb_control_transfer (bus : Bus) (w : World)
    (h bmRequestType bRequest wValue wIndex : Nat) (data : List Nat)
    (wLength timeout : Nat) : World × Int :=
  w.record bus
    (.libusb_control_transfer h bmRequestType bRequest wValue wIndex data wLength timeout)

/-! ## cleware.c -/

namespace Cleware

def CLEWARE_VENDOR_ID : Nat := 0x0d50
def CLEWARE_USB_SWITCH : Nat := 0x0008

def LED0 : Nat := 0x00
def LED1 : Nat := 0x01

/-- The `cleware_id` table of `(idVendor, idProduct)` pairs. -/
def cleware_id : List (Nat × Nat) := [(CLEWARE_VENDOR_ID, CLEWARE_USB_SWITCH)]

def TIMEOUT : Nat := 1000

/-- The value of `!on` for an `unsigned`. -/
def lnot (on_ : Nat) : Nat := if on_ = 0 then 1 else 0

/-- `set_led`: `data[1]` is `led` stored in an `unsigned char`, `data[2]` is
`on ? 0x00 : 0x0f`; the status of the transfer is returned as it is. -/
def set_led (bus : Bus) (w : World) (udevh led on_ : Nat) : World × Int :=
  let data := [0x00, led % 256, if on_ ≠ 0 then 0x00 else 0x0f]
  libusb_control_transfer bus w udevh 0x21 0x09 0x200 0x00 data 3 TIMEOUT

/-- `set_switch`: `data[1]` is `port + 0x10` (unsigned arithmetic, stored in an
`unsigned char`), `data[2]` is `on & 0x01`; both branches after the transfer
reach `out` and return `ret`. -/
def set_switch (bus : Bus) (w : World) (udevh port on_ : Nat) : World × Int :=
  let data := [0x00, (port + 0x10) % 2 ^ 32 % 256, on_ % 2]
  let r := libusb_control_transfer bus w udevh 0x21 0x09 0x200 0x00 data 3 TIMEOUT
  if r.2 < 0 then r else r

/-- `set_power`: the switch, then for port 0 the two indicators; the first
negative status is returned, otherwise 0. -/
def set_power (bus : Bus) (w : World) (udevh port on_ : Nat) : World × Int :=
  let r1 := set_switch bus w udevh port on_
  if r1.2 < 0 then r1
  else if port = 0 then
    let r2 := set_led bus r1.1 udevh LED0 on_
    if r2.2 < 0 then r2
    else
      let r3 := set_led bus r2.1 udevh LED1 (lnot on_)
      if r3.2 < 0 then r3 else (r3.1, 0)
  else (r1.1, 0)

/-- `match_device_id`: a failed descriptor read returns its negative status;
otherwise the loop over `cleware_id` sets `match` to 1 at every entry equal to
the descriptor's pair. -/
def match_device_id (bus : Bus) (w : World) (udev : Device) : World × Int :=
  let r := libusb_get_device_descriptor bus w udev
  if r.2 < 0 then r
  else
    (r.1, cleware_id.foldl
      (fun m e => if udev.desc.idVendor = e.1 ∧ udev.desc.idProduct = e.2 then 1 else m) 0)

/-- `match_device_serial_number`: the labels `out2` (attach), `out1` (close) and
`out0` (return `ret`) are laid out as in the source.  The comparison of the
byte read with `iSerial` jumps to `out2`, which is also where execution falls
through, and leaves `ret` as the read left it. -/
def match_device_serial_number (bus : Bus) (w : World) (udev : Device) (iSerial : Nat) :
    World × Int :=
  let r0 := libusb_get_device_descriptor bus w udev
  if r0.2 < 0 then r0
  else
    let r1 := libusb_open bus r0.1 udev
    match r1.2.2 with
    | none => (r1.1, r1.2.1)
    | some tmp =>
      let a := libusb_kernel_driver_active r1.1 tmp 0
      let r2 := if a.2 ≠ 0 then libusb_detach_kernel_driver bus a.1 tmp 0 else (a.1, r1.2.1)
      if a.2 ≠ 0 ∧ r2.2 < 0 then (libusb_close r2.1 tmp, r2.2)
      else
        let r3 := libusb_get_string_descriptor bus r2.1 tmp udev.desc.iSerialNumber 0x0409 1
        if r3.2.1 < 0 then (libusb_close r3.1 tmp, r3.2.1)
        else
          let w3 := if r3.2.2 ≠ iSerial then r3.1 else r3.1
          let r4 := libusb_attach_kernel_driver bus w3 tmp 0
          (libusb_close r4.1 tmp, r3.2.1)

/-- `print_device_attributes`; what is printed is not part of the state. -/
def print_device_attributes (bus : Bus) (w : World) (udev : Device) : World :=
  let r0 := libusb_get_device_descriptor bus w udev
  if r0.2 < 0 then r0.1
  else
    let r1 := libusb_open bus r0.1 udev
    match r1.2.2 with
    | none => r1.1
    | some tmp =>
      let a := libusb_kernel_driver_active r1.1 tmp 0
      let r2 := if a.2 ≠ 0 then libusb_detach_kernel_driver bus a.1 tmp 0 else (a.1, r1.2.1)
      if a.2 ≠ 0 ∧ r2.2 < 0 then libusb_close r2.1 tmp
      else if udev.desc.iProduct ≠ 0 then
        let r3 := libusb_get_string_descriptor_ascii bus r2.1 tmp udev.desc.iProduct 256
        if r3.2 < 0 then libusb_close r3.1 tmp else r3.1
      else r2.1

/-- `list_devices`: every device for which `match_device_id` is non-zero. -/
def list_devices (bus : Bus) : World → List Device → World
  | w, [] => w
  | w, udev :: rest =>
    let m := match_device_id bus w udev
    list_devices bus (if m.2 ≠ 0 then print_device_attributes bus m.1 udev else m.1) rest

/-- How one pass through the body of the loop of `find_and_open_device` ends. -/
inductive Flow where
  /-- the end of the body is reached: `i++` and the next entry -/
  | next
  /-- a `break`, with the value of `found` -/
  | brk (found : Option Device)
  /-- the `goto out` -/
  | out
  deriving DecidableEq, Repr

/-- The body of the loop of `find_and_open_device` for the entry `udev`. -/
def find_body (bus : Bus) (w : World) (udev : Device) (iSerial : Nat) : World × Flow :=
  let r := match_device_id bus w udev
  if r.2 ≤ 0 then (r.1, .out)
  else if iSerial ≠ 0 then
    let s := match_device_serial_number bus r.1 udev iSerial
    if s.2 < 0 then (s.1, .brk none) else (s.1, .brk (some udev))
  else (r.1, .brk (some udev))

/-- The loop `for (i = 0; i < count; i++)` of `find_and_open_device`; leaving it
at `i = count` keeps `found = NULL`. -/
def find_loop (bus : Bus) (iSerial : Nat) : World → List Device → World × Flow
  | w, [] => (w, .brk none)
  | w, udev :: rest =>
    match find_body bus w udev iSerial with
    | (w1, .next) => find_loop bus iSerial w1 rest
    | r => r

/-- `find_and_open_device`: the handle returned, `none` for `NULL`.  After the
loop the device found is opened; with `found = NULL` there is nothing to open
and the handle stays `NULL`. -/
def find_and_open_device (bus : Bus) (w : World) (list : List Device) (iSerial : Nat) :
    World × Option Nat :=
  match find_loop bus iSerial w list with
  | (w1, .out) => (w1, none)
  | (w1, .next) => (w1, none)
  | (w1, .brk none) => (w1, none)
  | (w1, .brk (some found)) =>
    let r := libusb_open bus w1 found
    (r.1, r.2.2)

/-- `find_and_claim_interface`, with the labels `out1` (release) and `out0`
(return `ret`). -/
def find_and_claim_interface (bus : Bus) (w : World) (udevh : Nat) : World × Int :=
  let a := libusb_kernel_driver_active w udevh 0
  let r1 := if a.2 ≠ 0 then libusb_detach_kernel_driver bus a.1 udevh 0 else (a.1, 0)
  if a.2 ≠ 0 ∧ r1.2 < 0 then r1
  else
    let r2 := libusb_set_configuration bus r1.1 udevh 1
    if r2.2 < 0 then r2
    else
      let r3 := libusb_claim_interface bus r2.1 udevh 0
      if r3.2 < 0 then r3
      else
        let r4 := libusb_set_interface_alt_setting bus r3.1 udevh 0 0
        if r4.2 < 0 then ((libusb_release_interface bus r4.1 udevh 0).1, r4.2)
        else (r4.1, 0)

def release_interface (bus : Bus) (w : World) (udevh : Nat) : World :=
  (libusb_release_interface bus w udevh 0).1

/-- The values `main` has after parsing the command line. -/
structure Options where
  port : Nat
  iSerial : Nat
  list_devs : Nat
  on_ : Nat
  deriving DecidableEq, Repr

/-- `main` from `libusb_get_device_list` on: `count` and `list` are what that
call gave; the value is the `ret` that `main` returns.  `ret` starts at 0 and
the labels `out3` (release), `out2` (close) and `out1` follow the source;
`libusb_close(NULL)` does nothing. -/
def main (bus : Bus) (w : World) (opts : Options) (count : Int) (list : List Device) :
    World × Int :=
  if count < 0 then (w, count)
  else if opts.list_devs ≠ 0 then (list_devices bus w (list.take count.toNat), 0)
  else
    let f := find_and_open_device bus w (list.take count.toNat) opts.iSerial
    match f.2 with
    | none => (f.1, 0)
    | some udevh =>
      let c := find_and_claim_interface bus f.1 udevh
      if c.2 < 0 then (libusb_close c.1 udevh, c.2)
      else
        let p := set_power bus c.1 udevh opts.port opts.on_
        (libusb_close (release_interface bus p.1 udevh) udevh, p.2)

/-- The teardown `main` performs after `find_and_claim_interface`, with nothing
in between: `release_interface` when the claim did not fail (`out3`), then
`libusb_close` (`out2`). -/
def open_then_teardown (bus : Bus) (w : World) (udevh : Nat) : World × Int :=
  let c := find_and_claim_interface bus w udevh
  if c.2 < 0 then (libusb_close c.1 udevh, c.2)
  else (libusb_close (release_interface bus c.1 udevh) udevh, c.2)

end Cleware

/-! ## control.c -/

namespace Control

def DEFAULT_TIMEOUT : Nat := 2000

/-- The value of `ENODEV`. -/
def ENODEV : Int := 19

/-- `send_control_message`.  `malloc` gives the buffer of `wLength` bytes, or
`none` when the allocation fails; with `wLength = 0` the buffer is `NULL`. -/
def send_control_message (bus : Bus) (malloc : Nat → Option (List Nat)) (w : World)
    (udevh bmRequestType bRequest wValue wIndex wLength : Nat) : World × Int :=
  if wLength ≠ 0 then
    match malloc wLength with
    | none => (w, -1)
    | some buf =>
      libusb_control_transfer bus w udevh bmRequestType bRequest wValue wIndex buf wLength
        DEFAULT_TIMEOUT
  else
    libusb_control_transfer bus w udevh bmRequestType bRequest wValue wIndex [] wLength
      DEFAULT_TIMEOUT

/-- The loop `for (i = count; i; --i)` of `main`, for `count` below `2 ^ 31`. -/
def send_loop (bus : Bus) (malloc : Nat → Option (List Nat))
    (udevh bmRequestType bRequest wValue wIndex wLength : Nat) : Nat → World → Int → World × Int
  | 0, w, ret => (w, ret)
  | i + 1, w, _ =>
    let r := send_control_message bus malloc w udevh bmRequestType bRequest wValue wIndex wLength
    if r.2 < 0 then r
    else send_loop bus malloc udevh bmRequestType bRequest wValue wIndex wLength i r.1 r.2

/-- The values `main` has after parsing the command line. -/
structure Options where
  count : Nat
  wLength : Nat
  wValue : Nat
  wIndex : Nat
  vid : Nat
  pid : Nat
  bmRequestType : Nat
  bRequest : Nat
  deriving DecidableEq, Repr

/-- `main` from `libusb_open_device_with_vid_pid` on; `opened` is the handle
that call gave, `none` for `NULL`.  The value is the `ret` that `main` returns. -/
def main (bus : Bus) (malloc : Nat → Option (List Nat)) (w : World) (opts : Options)
    (opened : Option Nat) : World × Int :=
  match opened with
  | none => (w, -ENODEV)
  | some udevh =>
    let w1 := (w.record bus (.libusb_set_auto_detach_kernel_driver udevh 1)).1
    let w2 := if opts.bmRequestType = 0x01 ∧ opts.bRequest = 0x0b
      then (libusb_claim_interface bus w1 udevh opts.wIndex).1 else w1
    let r := send_loop bus malloc udevh opts.bmRequestType opts.bRequest opts.wValue
      opts.wIndex opts.wLength opts.count w2 0
    (libusb_close r.1 udevh, r.2)

end Control

/-! ## Concrete buses and devices -/

/-- A bus on which every call returns 0. -/
def okBus : Bus := { status := fun _ _ => 0, serial := fun _ => 0 }

/-- A bus on which a control transfer returns the number of bytes asked for and
every other call returns 0. -/
def fullBus : Bus :=
  { status := fun _ c =>
      match c with
      | .libusb_control_transfer _ _ _ _ _ _ wLength _ => wLength
      | _ => 0,
    serial := fun _ => 0 }

/-- A bus on which the `n`-th call (counted from 0) returns `e` and every other
call returns 0. -/
def failAt (n : Nat) (e : Int) : Bus :=
  { status := fun log _ => if log.length = n then e else 0, serial := fun _ => 0 }

/-- A bus on which a string-descriptor read returns 1 (one byte read) and stores
the byte 5, and every other call returns 0. -/
def serialBus : Bus :=
  { status := fun _ c =>
      match c with
      | .libusb_get_string_descriptor _ _ _ _ => 1
      | _ => 0,
    serial := fun _ => 5 }

/-- An allocator that never fails and gives a zero-filled buffer. -/
def zeroAlloc (n : Nat) : Option (List Nat) := some (List.replicate n 0)

/-- The state before the program runs: nothing claimed, nothing logged. -/
def World.init (bound : List Nat) : World := { bound := bound, claimed := [], log := [] }

/-- A Cleware switch with device number `id`. -/
def clewareDev (id : Nat) : Device :=
  { id := id, desc := { idVendor := 0x0d50, idProduct := 0x0008, iSerialNumber := 3, iProduct := 2 } }

/-- A root hub (1d6b:0002) with device number `id`. -/
def hubDev (id : Nat) : Device :=
  { id := id, desc := { idVendor := 0x1d6b, idProduct := 0x0002, iSerialNumber := 1, iProduct := 2 } }

/-! ## The transfers of the protocol, as the specification words them -/

/-- The transfer that sets output port `P` to state `S`: request-type 0x21,
request 0x09, value 0x0200, index 0, payload `[0x00, 0x10 + P, S ? 0x01 : 0x00]`,
length 3, timeout 1000 ms. -/
def outputPortTransfer (udevh P : Nat) (S : Bool) : Call :=
  .libusb_control_transfer udevh 0x21 0x09 0x0200 0x00
    [0x00, 0x10 + P, if S then 0x01 else 0x00] 3 1000

/-- The transfer that sets indicator `L` to state `S`: as for an output port,
with payload `[0x00, L, S ? 0x00 : 0x0f]`. -/
def indicatorTransfer (udevh L : Nat) (S : Bool) : Call :=
  .libusb_control_transfer udevh 0x21 0x09 0x0200 0x00
    [0x00, L, if S then 0x00 else 0x0f] 3 1000

/-- The state `w` after the calls `cs` were made and nothing else changed. -/
def World.after (w : World) (cs : List Call) : World := { w with log := w.log ++ cs }

/-! ## Theorems -/

/-- C1: for a port below 16 and a state given as 1 (ON) or 0 (OFF), `set_switch`
makes exactly one call, the output-port transfer of the specification, and
returns the status the bus gave for it; port 3 gives the payloads
`[0x00, 0x13, 0x01]` and `[0x00, 0x13, 0x00]`. -/
theorem Cleware.set_switch_one_transfer (bus : Bus) (w : World) (udevh port on_ : Nat)
    (S : Bool) (hport : port < 16) (hon : on_ = if S then 1 else 0) :
    Cleware.set_switch bus w udevh port on_ =
        (w.after [outputPortTransfer udevh port S],
          bus.status w.log (outputPortTransfer udevh port S))
      ∧ outputPortTransfer udevh 3 true =
          .libusb_control_transfer udevh 0x21 0x09 0x0200 0x00 [0x00, 0x13, 0x01] 3 1000
      ∧ outputPortTransfer udevh 3 false =
          .libusb_control_transfer udevh 0x21 0x09 0x0200 0x00 [0x00, 0x13, 0x00] 3 1000 := by
  refine ⟨?_, rfl, rfl⟩
  have h1 : (port + 0x10) % 2 ^ 32 % 256 = 0x10 + port := by omega
  have h2 : on_ % 2 = if S then 1 else 0 := by cases S <;> simp [hon]
  simp only [Cleware.set_switch, libusb_control_transfer, World.record, Cleware.TIMEOUT,
    outputPortTransfer, World.after, h1, h2, ite_self]

/-- Witness of C1: port 3 switched ON on a bus where every call returns 0. -/
theorem Cleware.set_switch_one_transfer_witness :
    Cleware.set_switch okBus (World.init []) 7 3 1 =
      ({ bound := [], claimed := [],
         log := [.libusb_control_transfer 7 0x21 0x09 0x0200 0x00 [0x00, 0x13, 0x01] 3 1000] },
        0) :=
  (Cleware.set_switch_one_transfer okBus (World.init []) 7 3 1 true (by decide) (by decide)).1

/-- C2: for an indicator below 4 and any state (ON is any non-zero `on`),
`set_led` makes exactly one call, the indicator transfer of the specification
with its inverted polarity, and returns the status the bus gave for it;
indicator 1 gives the payloads `[0x00, 0x01, 0x00]` and `[0x00, 0x01, 0x0f]`. -/
theorem Cleware.set_led_one_transfer (bus : Bus) (w : World) (udevh led on_ : Nat)
    (S : Bool) (hled : led < 4) (hon : S = true ↔ on_ ≠ 0) :
    Cleware.set_led bus w udevh led on_ =
        (w.after [indicatorTransfer udevh led S],
          bus.status w.log (indicatorTransfer udevh led S))
      ∧ indicatorTransfer udevh 1 true =
          .libusb_control_transfer udevh 0x21 0x09 0x0200 0x00 [0x00, 0x01, 0x00] 3 1000
      ∧ indicatorTransfer udevh 1 false =
          .libusb_control_transfer udevh 0x21 0x09 0x0200 0x00 [0x00, 0x01, 0x0f] 3 1000 := by
  refine ⟨?_, rfl, rfl⟩
  have h1 : led % 256 = led := by omega
  have h2 : (if on_ ≠ 0 then 0x00 else 0x0f) = if S then 0x00 else 0x0f := by
    cases S
    · have : ¬ on_ ≠ 0 := fun h => by simpa using hon.2 h
      simp [this]
    · have : on_ ≠ 0 := hon.1 rfl
      simp [this]
  simp only [Cleware.set_led, libusb_control_transfer, World.record, Cleware.TIMEOUT,
    indicatorTransfer, World.after, h1, h2]

/-- Witness of C2: indicator 1 switched OFF on a bus where every call returns 0. -/
theorem Cleware.set_led_one_transfer_witness :
    Cleware.set_led okBus (World.init []) 7 1 0 =
      ({ bound := [], claimed := [],
         log := [.libusb_control_transfer 7 0x21 0x09 0x0200 0x00 [0x00, 0x01, 0x0f] 3 1000] },
        0) :=
  (Cleware.set_led_one_transfer okBus (World.init []) 7 1 0 false (by decide) (by decide)).1

/-- What `set_switch` does for any port and any `on`: one transfer, whose
status is returned. -/
theorem Cleware.set_switch_eq (bus : Bus) (w : World) (udevh port on_ : Nat) :
    Cleware.set_switch bus w udevh port on_ =
      (w.after [.libusb_control_transfer udevh 0x21 0x09 0x200 0x00
          [0x00, (port + 0x10) % 256, on_ % 2] 3 1000],
        bus.status w.log (.libusb_control_transfer udevh 0x21 0x09 0x200 0x00
          [0x00, (port + 0x10) % 256, on_ % 2] 3 1000)) := by
  have h1 : (port + 0x10) % 2 ^ 32 % 256 = (port + 0x10) % 256 := by omega
  simp only [Cleware.set_switch, libusb_control_transfer, World.record, Cleware.TIMEOUT,
    World.after, h1, ite_self]

/-- What `set_led` does for any indicator and any `on`. -/
theorem Cleware.set_led_eq (bus : Bus) (w : World) (udevh led on_ : Nat) :
    Cleware.set_led bus w udevh led on_ =
      (w.after [.libusb_control_transfer udevh 0x21 0x09 0x200 0x00
          [0x00, led % 256, if on_ ≠ 0 then 0x00 else 0x0f] 3 1000],
        bus.status w.log (.libusb_control_transfer udevh 0x21 0x09 0x200 0x00
          [0x00, led % 256, if on_ ≠ 0 then 0x00 else 0x0f] 3 1000)) := by
  simp only [Cleware.set_led, libusb_control_transfer, World.record, Cleware.TIMEOUT,
    World.after]

theorem World.after_after (w : World) (cs ds : List Call) :
    (w.after cs).after ds = w.after (cs ++ ds) := by
  simp [World.after]

/-- C3: for port 0 and a state given as 1 or 0, `set_power` issues the
output-port transfer, then indicator 0 with the same state, then indicator 1
with the opposite state.  The first transfer with a negative status ends the
sequence: nothing is issued after it, nothing is issued to undo what was sent,
and its status is returned.  When none fails the three transfers are issued and
0 is returned.  For any other port only the output-port transfer is issued. -/
theorem Cleware.set_power_sequence (bus : Bus) (w : World) (udevh on_ : Nat) (S : Bool)
    (hon : on_ = if S then 1 else 0) :
    let t1 := outputPortTransfer udevh 0 S
    let t2 := indicatorTransfer udevh 0 S
    let t3 := indicatorTransfer udevh 1 (!S)
    let s1 := bus.status w.log t1
    let s2 := bus.status (w.log ++ [t1]) t2
    let s3 := bus.status (w.log ++ [t1, t2]) t3
    (s1 < 0 → Cleware.set_power bus w udevh 0 on_ = (w.after [t1], s1))
    ∧ (0 ≤ s1 → s2 < 0 → Cleware.set_power bus w udevh 0 on_ = (w.after [t1, t2], s2))
    ∧ (0 ≤ s1 → 0 ≤ s2 → s3 < 0 →
        Cleware.set_power bus w udevh 0 on_ = (w.after [t1, t2, t3], s3))
    ∧ (0 ≤ s1 → 0 ≤ s2 → 0 ≤ s3 →
        Cleware.set_power bus w udevh 0 on_ = (w.after [t1, t2, t3], 0))
    ∧ (∀ port, port ≠ 0 →
        let t := Call.libusb_control_transfer udevh 0x21 0x09 0x0200 0x00
          [0x00, (port + 0x10) % 256, if S then 0x01 else 0x00] 3 1000
        Cleware.set_power bus w udevh port on_ =
          (w.after [t], if bus.status w.log t < 0 then bus.status w.log t else 0)) := by
  have h2 : on_ % 2 = if S then 1 else 0 := by cases S <;> simp [hon]
  have h3 : (if on_ ≠ 0 then 0x00 else 0x0f) = if S then 0x00 else 0x0f := by
    cases S <;> simp [hon]
  have h4 : (if Cleware.lnot on_ ≠ 0 then 0x00 else 0x0f) = if (!S) then 0x00 else 0x0f := by
    cases S <;> simp [hon, Cleware.lnot]
  have e1 : Cleware.set_switch bus w udevh 0 on_ =
      (w.after [outputPortTransfer udevh 0 S],
        bus.status w.log (outputPortTransfer udevh 0 S)) := by
    rw [Cleware.set_switch_eq, h2]; rfl
  have e2 : ∀ v : World, Cleware.set_led bus v udevh Cleware.LED0 on_ =
      (v.after [indicatorTransfer udevh 0 S],
        bus.status v.log (indicatorTransfer udevh 0 S)) := by
    intro v; rw [Cleware.set_led_eq, h3]; rfl
  have e3 : ∀ v : World, Cleware.set_led bus v udevh Cleware.LED1 (Cleware.lnot on_) =
      (v.after [indicatorTransfer udevh 1 (!S)],
        bus.status v.log (indicatorTransfer udevh 1 (!S))) := by
    intro v; rw [Cleware.set_led_eq, h4]; rfl
  intro t1 t2 t3 s1 s2 s3
  have hs2 : bus.status (w.after [t1]).log t2 = s2 := rfl
  have hs3 : bus.status ((w.after [t1]).after [t2]).log t3 = s3 := by
    simp [World.after, s3]
  refine ⟨?_, ?_, ?_, ?_, ?_⟩
  · intro a1
    simp only [Cleware.set_power, e1]
    rw [if_pos a1]
  · intro a1 a2
    simp only [Cleware.set_power, e1, e2]
    rw [if_neg (not_lt.mpr a1), if_pos trivial, hs2, if_pos a2, World.after_after]
    rfl
  · intro a1 a2 a3
    simp only [Cleware.set_power, e1, e2, e3]
    rw [if_neg (not_lt.mpr a1), if_pos trivial, hs2, if_neg (not_lt.mpr a2), hs3, if_pos a3,
      World.after_after, World.after_after]
    rfl
  · intro a1 a2 a3
    simp only [Cleware.set_power, e1, e2, e3]
    rw [if_neg (not_lt.mpr a1), if_pos trivial, hs2, if_neg (not_lt.mpr a2), hs3,
      if_neg (not_lt.mpr a3), World.after_after, World.after_after]
    rfl
  · intro port hp t
    simp only [Cleware.set_power, Cleware.set_switch_eq, h2, if_neg hp]
    by_cases a1 : bus.status w.log t < 0
    · rw [if_pos a1, if_pos a1]
    · rw [if_neg a1, if_neg a1]

/-- Witness of C3: on a bus where the second call fails with -4, power ON for
port 0 issues the output-port transfer and the transfer for indicator 0, and
returns -4. -/
theorem Cleware.set_power_sequence_witness :
    Cleware.set_power (failAt 1 (-4)) (World.init []) 7 0 1 =
      ({ bound := [], claimed := [],
         log := [.libusb_control_transfer 7 0x21 0x09 0x0200 0x00 [0x00, 0x10, 0x01] 3 1000,
                 .libusb_control_transfer 7 0x21 0x09 0x0200 0x00 [0x00, 0x00, 0x00] 3 1000] },
        -4) :=
  (Cleware.set_power_sequence (failAt 1 (-4)) (World.init []) 7 1 true (by decide)).2.1
    (by decide) (by decide)

/-- The value of `match_device_id`: the negative status of a failed descriptor
read, otherwise 1 for the Cleware pair and 0 for any other. -/
theorem Cleware.match_device_id_eq (bus : Bus) (w : World) (udev : Device) :
    Cleware.match_device_id bus w udev =
      (w.after [.libusb_get_device_descriptor udev.id],
        if bus.status w.log (.libusb_get_device_descriptor udev.id) < 0
        then bus.status w.log (.libusb_get_device_descriptor udev.id)
        else if udev.desc.idVendor = 0x0d50 ∧ udev.desc.idProduct = 0x0008 then 1 else 0) := by
  simp only [Cleware.match_device_id, libusb_get_device_descriptor, World.record,
    Cleware.cleware_id, Cleware.CLEWARE_VENDOR_ID, Cleware.CLEWARE_USB_SWITCH,
    List.foldl, World.after]
  split <;> rfl

/-- C4 (behaviour of the code): when the first entry of the device list is not
the Cleware pair, `find_and_open_device` returns `NULL`, whatever entries
follow it: the `goto out` taken for that entry leaves the loop, so a Cleware
switch further down the list is never looked at. -/
theorem Cleware.find_and_open_device_stops_at_first (bus : Bus) (w : World) (d : Device)
    (rest : List Device) (iSerial : Nat)
    (hd : ¬ (d.desc.idVendor = 0x0d50 ∧ d.desc.idProduct = 0x0008)) :
    (Cleware.find_and_open_device bus w (d :: rest) iSerial).2 = none := by
  have hle : (Cleware.match_device_id bus w d).2 ≤ 0 := by
    rw [Cleware.match_device_id_eq]
    simp only [if_neg hd]
    split
    · omega
    · exact le_refl 0
  simp only [Cleware.find_and_open_device, Cleware.find_loop, Cleware.find_body, if_pos hle]

/-- Witness of C4: the list holds a root hub and then a Cleware switch, there is
no serial filter and no call fails; the result is `NULL`. -/
theorem Cleware.find_and_open_device_stops_at_first_witness :
    (Cleware.find_and_open_device okBus (World.init []) [hubDev 0, clewareDev 1] 0).2 = none :=
  Cleware.find_and_open_device_stops_at_first okBus (World.init []) (hubDev 0) [clewareDev 1] 0
    (by decide)

/-- C5 (behaviour of the code): with a serial filter, when the first entry is a
Cleware switch and no call into the bus fails, `find_and_open_device` returns
the handle of that entry whatever byte the serial read gave:
`match_device_serial_number` returns the non-negative status of the read both
when the byte equals `iSerial` and when it differs. -/
theorem Cleware.find_and_open_device_ignores_serial (bus : Bus) (w : World) (d : Device)
    (rest : List Device) (iSerial : Nat)
    (hd : d.desc.idVendor = 0x0d50 ∧ d.desc.idProduct = 0x0008)
    (hs : iSerial ≠ 0) (hok : ∀ log c, 0 ≤ bus.status log c) :
    (Cleware.find_and_open_device bus w (d :: rest) iSerial).2 = some d.id := by
  have hn : ∀ log c, ¬ bus.status log c < 0 := fun log c => not_lt.mpr (hok log c)
  have hm : ¬ (Cleware.match_device_id bus w d).2 ≤ 0 := by
    rw [Cleware.match_device_id_eq]
    simp [hn, hd]
  have hser : ∀ v : World, ¬ (Cleware.match_device_serial_number bus v d iSerial).2 < 0 := by
    intro v
    by_cases hb : d.id ∈ v.bound <;>
      simp [Cleware.match_device_serial_number, libusb_get_device_descriptor, libusb_open,
        World.record, libusb_kernel_driver_active, libusb_detach_kernel_driver,
        libusb_get_string_descriptor, hn, hok, hb]
  simp only [Cleware.find_and_open_device, Cleware.find_loop, Cleware.find_body, if_neg hm,
    if_pos hs, if_neg (hser _), libusb_open, World.record, hn, if_false]

theorem serialBus_ok (log : List Call) (c : Call) : 0 ≤ serialBus.status log c := by
  cases c <;> simp [serialBus]

/-- Witness of C5: the only device is a Cleware switch whose serial read gives
the byte 5, the filter is 7, and the device is opened all the same. -/
theorem Cleware.find_and_open_device_ignores_serial_witness :
    serialBus.serial 1 % 256 ≠ 7 ∧
      (Cleware.find_and_open_device serialBus (World.init [1]) [clewareDev 1] 7).2 = some 1 :=
  ⟨by decide,
    Cleware.find_and_open_device_ignores_serial serialBus (World.init [1]) (clewareDev 1) [] 7
      (by decide) (by decide) serialBus_ok⟩

/-- C6 (behaviour of the code): when the default driver is bound on entry, the
descriptor read, the open and the detach do not fail and the string-descriptor
read fails, `match_device_serial_number` jumps to `out1`: it closes the handle
and returns the status of the read without calling
`libusb_attach_kernel_driver`, and the driver is left detached. -/
theorem Cleware.match_device_serial_number_read_failure (bus : Bus) (w : World)
    (udev : Device) (iSerial : Nat)
    (hb : udev.id ∈ w.bound)
    (h0 : 0 ≤ bus.status w.log (.libusb_get_device_descriptor udev.id))
    (h1 : 0 ≤ bus.status (w.log ++ [.libusb_get_device_descriptor udev.id])
      (.libusb_open udev.id))
    (h2 : 0 ≤ bus.status (w.log ++ [.libusb_get_device_descriptor udev.id,
        .libusb_open udev.id, .libusb_kernel_driver_active udev.id 0])
      (.libusb_detach_kernel_driver udev.id 0))
    (h3 : bus.status (w.log ++ [.libusb_get_device_descriptor udev.id,
        .libusb_open udev.id, .libusb_kernel_driver_active udev.id 0,
        .libusb_detach_kernel_driver udev.id 0])
      (.libusb_get_string_descriptor udev.id udev.desc.iSerialNumber 0x0409 1) < 0) :
    udev.id ∉ (Cleware.match_device_serial_number bus w udev iSerial).1.bound
    ∧ (Cleware.match_device_serial_number bus w udev iSerial).1.log =
        w.log ++ [.libusb_get_device_descriptor udev.id, .libusb_open udev.id,
          .libusb_kernel_driver_active udev.id 0, .libusb_detach_kernel_driver udev.id 0,
          .libusb_get_string_descriptor udev.id udev.desc.iSerialNumber 0x0409 1,
          .libusb_close udev.id]
    ∧ (Cleware.match_device_serial_number bus w udev iSerial).2 =
        bus.status (w.log ++ [.libusb_get_device_descriptor udev.id,
          .libusb_open udev.id, .libusb_kernel_driver_active udev.id 0,
          .libusb_detach_kernel_driver udev.id 0])
        (.libusb_get_string_descriptor udev.id udev.desc.iSerialNumber 0x0409 1) := by
  have g0 := not_lt.mpr h0
  have g1 := not_lt.mpr h1
  have g2 := not_lt.mpr h2
  simp only [List.append_assoc, List.singleton_append, List.cons_append, List.nil_append]
    at g1 g2 h3 ⊢
  simp [Cleware.match_device_serial_number, libusb_get_device_descriptor, libusb_open,
    World.record, libusb_kernel_driver_active, libusb_detach_kernel_driver,
    libusb_get_string_descriptor, libusb_close, hb, g0, g1, g2, h3, h0, h1, h2]

/-- Witness of C6: the driver of device 1 is bound, the fifth call (the
string-descriptor read) fails with -1; afterwards the driver is not bound. -/
theorem Cleware.match_device_serial_number_read_failure_witness :
    1 ∈ (World.init [1]).bound ∧
      1 ∉ (Cleware.match_device_serial_number (failAt 4 (-1)) (World.init [1])
        (clewareDev 1) 7).1.bound :=
  ⟨by decide,
    (Cleware.match_device_serial_number_read_failure (failAt 4 (-1)) (World.init [1])
      (clewareDev 1) 7 (by decide) (by decide) (by decide) (by decide) (by decide)).1⟩

/-- The drivers bound after `find_and_claim_interface`: the driver of `udevh` is
unbound when it was bound and the detach did not fail, and nothing else
changes. -/
theorem Cleware.find_and_claim_interface_bound (bus : Bus) (w : World) (udevh : Nat) :
    (Cleware.find_and_claim_interface bus w udevh).1.bound =
      if udevh ∈ w.bound ∧ ¬ bus.status (w.log ++ [.libusb_kernel_driver_active udevh 0])
          (.libusb_detach_kernel_driver udevh 0) < 0
      then w.bound.filter (fun d => d ≠ udevh) else w.bound := by
  by_cases hb : udevh ∈ w.bound
  · by_cases hd : bus.status (w.log ++ [.libusb_kernel_driver_active udevh 0])
        (.libusb_detach_kernel_driver udevh 0) < 0
    · simp [Cleware.find_and_claim_interface, libusb_kernel_driver_active,
        libusb_detach_kernel_driver, hb, hd]
    · simp only [Cleware.find_and_claim_interface, libusb_kernel_driver_active,
        libusb_detach_kernel_driver, libusb_set_configuration, libusb_claim_interface,
        libusb_set_interface_alt_setting, libusb_release_interface, World.record]
      simp only [hb, hd, and_true, and_false, true_and, ne_eq, one_ne_zero, not_false_eq_true,
        if_true, if_false, false_or, not_true_eq_false]
      split_ifs <;> rfl
  · simp only [Cleware.find_and_claim_interface, libusb_kernel_driver_active,
      libusb_detach_kernel_driver, libusb_set_configuration, libusb_claim_interface,
      libusb_set_interface_alt_setting, libusb_release_interface, World.record]
    simp only [hb, and_false, false_and, ne_eq, not_true_eq_false, if_false]
    split_ifs <;> rfl

/-- C7 (as amended): after `find_and_claim_interface` followed at once by the
teardown of `main`, the default driver of the device is bound exactly when it
was bound before and the detach failed; the drivers of all other devices are
as before.  So the state is the one before open when the driver was not bound
or the detach fails, and a driver that was detached stays detached on the
success path and after a failing set-configuration, claim or alternate
setting. -/
theorem Cleware.open_then_teardown_driver (bus : Bus) (w : World) (udevh : Nat) :
    (udevh ∈ (Cleware.open_then_teardown bus w udevh).1.bound ↔
      udevh ∈ w.bound ∧ bus.status (w.log ++ [.libusb_kernel_driver_active udevh 0])
        (.libusb_detach_kernel_driver udevh 0) < 0)
    ∧ ∀ d, d ≠ udevh →
        (d ∈ (Cleware.open_then_teardown bus w udevh).1.bound ↔ d ∈ w.bound) := by
  have hb : (Cleware.open_then_teardown bus w udevh).1.bound =
      (Cleware.find_and_claim_interface bus w udevh).1.bound := by
    simp only [Cleware.open_then_teardown, Cleware.release_interface, libusb_close,
      libusb_release_interface]
    split_ifs <;> rfl
  rw [hb, Cleware.find_and_claim_interface_bound]
  constructor
  · split_ifs with h
    · simp [h.2]
    · constructor
      · intro hm
        exact ⟨hm, not_not.mp (fun hn => h ⟨hm, hn⟩)⟩
      · exact fun hm => hm.1
  · intro d hd
    split_ifs with h
    · simp [List.mem_filter, hd]
    · exact Iff.rfl

/-- Witness of C7: the driver of device 1 is bound and the detach (second call)
fails with -3; after open and teardown the driver is still bound, and the
driver of device 2 is bound as before. -/
theorem Cleware.open_then_teardown_driver_witness :
    1 ∈ (Cleware.open_then_teardown (failAt 1 (-3)) (World.init [1, 2]) 1).1.bound
      ∧ 2 ∈ (Cleware.open_then_teardown (failAt 1 (-3)) (World.init [1, 2]) 1).1.bound :=
  ⟨(Cleware.open_then_teardown_driver (failAt 1 (-3)) (World.init [1, 2]) 1).1.2
      ⟨by decide, by decide⟩,
    ((Cleware.open_then_teardown_driver (failAt 1 (-3)) (World.init [1, 2]) 1).2 2
      (by decide)).2 (by decide)⟩

/-- Counterexample to C7: the driver of device 1 is bound before open; after
open and teardown it is not bound when no call fails, and neither when the set
configuration (third call), the claim (fourth call) or the alternate setting
(fifth call) fails. -/
theorem Cleware.open_then_teardown_not_restored :
    1 ∈ (World.init [1]).bound ∧
      1 ∉ (Cleware.open_then_teardown okBus (World.init [1]) 1).1.bound ∧
      1 ∉ (Cleware.open_then_teardown (failAt 2 (-5)) (World.init [1]) 1).1.bound ∧
      1 ∉ (Cleware.open_then_teardown (failAt 3 (-6)) (World.init [1]) 1).1.bound ∧
      1 ∉ (Cleware.open_then_teardown (failAt 4 (-1)) (World.init [1]) 1).1.bound := by
  decide

/-- C8 (as amended): the calls `find_and_claim_interface` makes and the value it
returns, path by path.  A failing detach, set-configuration or claim returns the
failing status with no later call and no release; a failing alternate setting
is followed by one release of interface 0 and returns the failing status; when
nothing fails the value is 0 and nothing is released. -/
theorem Cleware.find_and_claim_interface_paths (bus : Bus) (w : World) (udevh : Nat) :
    let query := Call.libusb_kernel_driver_active udevh 0
    let detach := Call.libusb_detach_kernel_driver udevh 0
    let config := Call.libusb_set_configuration udevh 1
    let claim := Call.libusb_claim_interface udevh 0
    let alt := Call.libusb_set_interface_alt_setting udevh 0 0
    let release := Call.libusb_release_interface udevh 0
    let pre := if udevh ∈ w.bound then [query, detach] else [query]
    let sd := bus.status (w.log ++ [query]) detach
    let sc := bus.status (w.log ++ pre) config
    let sk := bus.status (w.log ++ pre ++ [config]) claim
    let sa := bus.status (w.log ++ pre ++ [config, claim]) alt
    let r := Cleware.find_and_claim_interface bus w udevh
    (udevh ∈ w.bound → sd < 0 → r.1.log = w.log ++ pre ∧ r.2 = sd)
    ∧ ((udevh ∈ w.bound → 0 ≤ sd) → sc < 0 → r.1.log = w.log ++ pre ++ [config] ∧ r.2 = sc)
    ∧ ((udevh ∈ w.bound → 0 ≤ sd) → 0 ≤ sc → sk < 0 →
        r.1.log = w.log ++ pre ++ [config, claim] ∧ r.2 = sk)
    ∧ ((udevh ∈ w.bound → 0 ≤ sd) → 0 ≤ sc → 0 ≤ sk → sa < 0 →
        r.1.log = w.log ++ pre ++ [config, claim, alt, release] ∧ r.2 = sa)
    ∧ ((udevh ∈ w.bound → 0 ≤ sd) → 0 ≤ sc → 0 ≤ sk → 0 ≤ sa →
        r.1.log = w.log ++ pre ++ [config, claim, alt] ∧ r.2 = 0) := by
  dsimp only
  by_cases hb : udevh ∈ w.bound
  · simp only [Cleware.find_and_claim_interface, libusb_kernel_driver_active,
      libusb_detach_kernel_driver, libusb_set_configuration, libusb_claim_interface,
      libusb_set_interface_alt_setting, libusb_release_interface, World.record,
      List.append_assoc, List.cons_append, List.nil_append, List.singleton_append,
      hb, and_true, true_and, ne_eq, one_ne_zero, not_false_eq_true, if_true, forall_const]
    refine ⟨?_, ?_, ?_, ?_, ?_⟩
    · intro h1
      simp [h1]
    · intro h1 h2
      simp [not_lt.mpr h1, h2]
    · intro h1 h2 h3
      simp [not_lt.mpr h1, not_lt.mpr h2, h3]
    · intro h1 h2 h3 h4
      simp [not_lt.mpr h1, not_lt.mpr h2, not_lt.mpr h3, h4]
    · intro h1 h2 h3 h4
      simp [not_lt.mpr h1, not_lt.mpr h2, not_lt.mpr h3, not_lt.mpr h4]
  · simp only [Cleware.find_and_claim_interface, libusb_kernel_driver_active,
      libusb_detach_kernel_driver, libusb_set_configuration, libusb_claim_interface,
      libusb_set_interface_alt_setting, libusb_release_interface, World.record,
      List.append_assoc, List.cons_append, List.nil_append, List.singleton_append,
      hb, and_false, false_and, ne_eq, not_true_eq_false, if_false,
      false_implies, forall_const, true_and]
    refine ⟨?_, ?_, ?_, ?_⟩
    · intro h2
      simp [h2]
    · intro h2 h3
      simp [not_lt.mpr h2, h3]
    · intro h2 h3 h4
      simp [not_lt.mpr h2, not_lt.mpr h3, h4]
    · intro h2 h3 h4
      simp [not_lt.mpr h2, not_lt.mpr h3, not_lt.mpr h4]

/-- Witness of C8: the driver of device 1 is bound and the fifth call (the
alternate setting) fails with -6: interface 0 is released and -6 is returned. -/
theorem Cleware.find_and_claim_interface_paths_witness :
    (Cleware.find_and_claim_interface (failAt 4 (-6)) (World.init [1]) 1).1.log =
        [.libusb_kernel_driver_active 1 0, .libusb_detach_kernel_driver 1 0,
          .libusb_set_configuration 1 1, .libusb_claim_interface 1 0,
          .libusb_set_interface_alt_setting 1 0 0, .libusb_release_interface 1 0]
      ∧ (Cleware.find_and_claim_interface (failAt 4 (-6)) (World.init [1]) 1).2 = -6 :=
  (Cleware.find_and_claim_interface_paths (failAt 4 (-6)) (World.init [1]) 1).2.2.2.1
    (by decide) (by decide) (by decide) (by decide)

/-- Counterexample to C8: the driver of device 1 is bound, the detach and the
set configuration succeed and the claim (fourth call) fails with -6; the value
returned is -6 and interface 0 is not released. -/
theorem Cleware.find_and_claim_interface_claim_failure_no_release :
    (Cleware.find_and_claim_interface (failAt 3 (-6)) (World.init [1]) 1).2 = -6 ∧
      Call.libusb_release_interface 1 0 ∉
        (Cleware.find_and_claim_interface (failAt 3 (-6)) (World.init [1]) 1).1.log := by
  decide

/-- C9: when the buffer allocation succeeds (`buf` is the buffer `malloc` gave,
or the `NULL` buffer for `wLength = 0`), `send_control_message` makes exactly
one call, a control transfer with the given request-type, request, value, index
and length and timeout 2000 ms, and returns what the bus returned for it: the
byte count `n` when `0 ≤ n ≤ wLength`, the negative status when it is
negative. -/
theorem Control.send_control_message_one_transfer (bus : Bus)
    (malloc : Nat → Option (List Nat)) (w : World)
    (udevh bmRequestType bRequest wValue wIndex wLength : Nat) (buf : List Nat)
    (halloc : wLength ≠ 0 → malloc wLength = some buf) (hnull : wLength = 0 → buf = []) :
    let c := Call.libusb_control_transfer udevh bmRequestType bRequest wValue wIndex buf
      wLength 2000
    let r := Control.send_control_message bus malloc w udevh bmRequestType bRequest wValue
      wIndex wLength
    r = (w.after [c], bus.status w.log c)
    ∧ (∀ n : Int, bus.status w.log c = n → 0 ≤ n → n ≤ wLength → r.2 = n)
    ∧ (∀ e : Int, bus.status w.log c = e → e < 0 → r.2 = e) := by
  intro c r
  have hr : r = (w.after [c], bus.status w.log c) := by
    by_cases hl : wLength = 0
    · have hb := hnull hl
      simp only [r, c, Control.send_control_message, hl, hb, ne_eq, not_true_eq_false,
        if_false, libusb_control_transfer, World.record, Control.DEFAULT_TIMEOUT, World.after]
    · have hm := halloc hl
      simp only [r, c, Control.send_control_message, hl, hm, ne_eq, not_false_eq_true,
        if_true, libusb_control_transfer, World.record, Control.DEFAULT_TIMEOUT, World.after]
  refine ⟨hr, ?_, ?_⟩
  · intro n hn _ _
    rw [hr]; exact hn
  · intro e he _
    rw [hr]; exact he

/-- Witness of C9: a request for 4 bytes on a bus that transfers only 2 of them
returns 2. -/
theorem Control.send_control_message_one_transfer_witness :
    (Control.send_control_message
        { status := fun _ _ => 2, serial := fun _ => 0 } zeroAlloc (World.init []) 1
        0xc0 0x06 0x0100 0 4).2 = 2 :=
  (Control.send_control_message_one_transfer
    { status := fun _ _ => 2, serial := fun _ => 0 } zeroAlloc (World.init []) 1
    0xc0 0x06 0x0100 0 4 [0, 0, 0, 0] (fun _ => rfl) (by decide)).2.1 2 rfl (by decide)
    (by decide)

/-- The value of `set_power` is 0 unless it is negative. -/
theorem Cleware.set_power_nonneg (bus : Bus) (w : World) (udevh port on_ : Nat)
    (h : 0 ≤ (Cleware.set_power bus w udevh port on_).2) :
    (Cleware.set_power bus w udevh port on_).2 = 0 := by
  unfold Cleware.set_power at h ⊢
  dsimp only at h ⊢
  split_ifs at h ⊢ <;> first | rfl | omega

/-- What one `send_control_message` does: nothing but returning -1 when the
allocation fails, otherwise one transfer whose status is returned. -/
theorem Control.send_control_message_cases (bus : Bus) (malloc : Nat → Option (List Nat))
    (w : World) (udevh bmRequestType bRequest wValue wIndex wLength : Nat) :
    (wLength ≠ 0 ∧ malloc wLength = none ∧
        Control.send_control_message bus malloc w udevh bmRequestType bRequest wValue wIndex
          wLength = (w, -1))
    ∨ ∃ data,
        Control.send_control_message bus malloc w udevh bmRequestType bRequest wValue wIndex
          wLength =
        (w.after [.libusb_control_transfer udevh bmRequestType bRequest wValue wIndex data
            wLength 2000],
          bus.status w.log (.libusb_control_transfer udevh bmRequestType bRequest wValue
            wIndex data wLength 2000)) := by
  by_cases hl : wLength = 0
  · right
    exact ⟨[], by simp [Control.send_control_message, hl, libusb_control_transfer,
      World.record, Control.DEFAULT_TIMEOUT, World.after]⟩
  · cases hm : malloc wLength with
    | none =>
      left
      exact ⟨hl, rfl, by simp [Control.send_control_message, hl, hm]⟩
    | some buf =>
      right
      exact ⟨buf, by simp [Control.send_control_message, hl, hm, libusb_control_transfer,
        World.record, Control.DEFAULT_TIMEOUT, World.after]⟩

/-- The value of the loop of `main` after at least one pass: -1 from a failed
allocation, or the status the bus gave for the last transfer made. -/
theorem Control.send_loop_last (bus : Bus) (malloc : Nat → Option (List Nat))
    (udevh bmRequestType bRequest wValue wIndex wLength : Nat) :
    ∀ (n : Nat) (w : World) (ret : Int), 0 < n →
      (wLength ≠ 0 ∧ malloc wLength = none ∧
        (Control.send_loop bus malloc udevh bmRequestType bRequest wValue wIndex wLength
          n w ret).2 = -1)
      ∨ ∃ pre data,
          (Control.send_loop bus malloc udevh bmRequestType bRequest wValue wIndex wLength
            n w ret).1.log =
            pre ++ [.libusb_control_transfer udevh bmRequestType bRequest wValue wIndex data
              wLength 2000]
          ∧ (Control.send_loop bus malloc udevh bmRequestType bRequest wValue wIndex wLength
            n w ret).2 =
            bus.status pre (.libusb_control_transfer udevh bmRequestType bRequest wValue
              wIndex data wLength 2000) := by
  intro n
  induction n with
  | zero => intro w ret h; exact absurd h (lt_irrefl 0)
  | succ k ih =>
    intro w ret _
    rcases Control.send_control_message_cases bus malloc w udevh bmRequestType bRequest
      wValue wIndex wLength with ⟨hl, hm, he⟩ | ⟨data, he⟩
    · left
      refine ⟨hl, hm, ?_⟩
      simp [Control.send_loop, he]
    · by_cases hneg : bus.status w.log (.libusb_control_transfer udevh bmRequestType bRequest
          wValue wIndex data wLength 2000) < 0
      · right
        refine ⟨w.log, data, ?_, ?_⟩ <;> simp [Control.send_loop, he, hneg, World.after]
      · cases k with
        | zero =>
          right
          refine ⟨w.log, data, ?_, ?_⟩ <;> simp [Control.send_loop, he, hneg, World.after]
        | succ j =>
          have := ih (w.after [.libusb_control_transfer udevh bmRequestType bRequest
            wValue wIndex data wLength 2000])
            (bus.status w.log (.libusb_control_transfer udevh bmRequestType bRequest
              wValue wIndex data wLength 2000)) (Nat.succ_pos j)
          rw [Control.send_loop]
          simpa only [he, if_neg hneg] using this

/-- C10 (as amended): the value `main` returns.  In `cleware.c`, once a device
was found and opened, it is the negative status of `find_and_claim_interface`
when that fails, else the negative status of `set_power` when that fails, else
0.  In `control.c` it is `-ENODEV` when no device was opened, 0 when the count
is 0, and otherwise -1 for a failed buffer allocation or exactly what the bus
returned for the last control transfer made, which on success is the number of
bytes transferred. -/
theorem main_return_value (bus : Bus) (malloc : Nat → Option (List Nat)) (w : World)
    (copts : Cleware.Options) (count : Int) (list : List Device) (udevh : Nat)
    (kopts : Control.Options) :
    (0 ≤ count → copts.list_devs = 0 →
      (Cleware.find_and_open_device bus w (list.take count.toNat) copts.iSerial).2 =
        some udevh →
      let f := Cleware.find_and_open_device bus w (list.take count.toNat) copts.iSerial
      let c := Cleware.find_and_claim_interface bus f.1 udevh
      let p := Cleware.set_power bus c.1 udevh copts.port copts.on_
      let m := Cleware.main bus w copts count list
      (c.2 < 0 → m.2 = c.2) ∧ (0 ≤ c.2 → p.2 < 0 → m.2 = p.2)
        ∧ (0 ≤ c.2 → 0 ≤ p.2 → m.2 = 0))
    ∧ (Control.main bus malloc w kopts none).2 = -19
    ∧ (kopts.count = 0 → (Control.main bus malloc w kopts (some udevh)).2 = 0)
    ∧ (0 < kopts.count → kopts.count < 2 ^ 31 →
        (kopts.wLength ≠ 0 ∧ malloc kopts.wLength = none
          ∧ (Control.main bus malloc w kopts (some udevh)).2 = -1)
        ∨ ∃ pre data,
            (Control.main bus malloc w kopts (some udevh)).1.log =
              pre ++ [.libusb_control_transfer udevh kopts.bmRequestType kopts.bRequest
                kopts.wValue kopts.wIndex data kopts.wLength 2000, .libusb_close udevh]
            ∧ (Control.main bus malloc w kopts (some udevh)).2 =
              bus.status pre (.libusb_control_transfer udevh kopts.bmRequestType
                kopts.bRequest kopts.wValue kopts.wIndex data kopts.wLength 2000)) := by
  refine ⟨?_, rfl, ?_, ?_⟩
  · intro hc hl hf f c p m
    have hm : m = if c.2 < 0 then (libusb_close c.1 udevh, c.2)
        else (libusb_close (Cleware.release_interface bus p.1 udevh) udevh, p.2) := by
      simp only [m, Cleware.main, if_neg (not_lt.mpr hc), hl, ne_eq, not_true_eq_false,
        if_false, hf]
    refine ⟨?_, ?_, ?_⟩
    · intro h1
      rw [hm, if_pos h1]
    · intro h1 _
      rw [hm, if_neg (not_lt.mpr h1)]
    · intro h1 h2
      rw [hm, if_neg (not_lt.mpr h1)]
      exact Cleware.set_power_nonneg bus c.1 udevh copts.port copts.on_ h2
  · intro h0
    simp [Control.main, h0, Control.send_loop]
  · intro hpos _
    simp only [Control.main, libusb_close]
    rcases Control.send_loop_last bus malloc udevh kopts.bmRequestType kopts.bRequest
      kopts.wValue kopts.wIndex kopts.wLength kopts.count _ 0 hpos with h | ⟨pre, data, h1, h2⟩
    · exact Or.inl h
    · right
      refine ⟨pre, data, ?_, h2⟩
      simp only [h1, List.append_assoc, List.singleton_append]

/-- Witness of C10: the Cleware switch is found and opened and the claim of
interface 0 (the fifth call) fails with -6; `main` returns -6. -/
theorem main_return_value_witness :
    (Cleware.main (failAt 4 (-6)) (World.init []) ⟨0, 0, 0, 1⟩ 1 [clewareDev 1]).2 = -6 :=
  ((main_return_value (failAt 4 (-6)) zeroAlloc (World.init []) ⟨0, 0, 0, 1⟩ 1
    [clewareDev 1] 1 ⟨1, 0, 0, 0, 0, 0, 0, 0⟩).1 (by decide) (by decide) (by decide)).1
    (by decide)

/-- Counterexample to C10: the raw control-message tool asks once for 2 bytes
(request-type 0xc0, request 0x06), the device is opened and the bus transfers
both bytes, so the operation succeeds; `main` returns 2, not 0. -/
theorem Control.main_success_returns_byte_count :
    fullBus.status [.libusb_set_auto_detach_kernel_driver 1 1]
        (.libusb_control_transfer 1 0xc0 0x06 0x0100 0 [0, 0] 2 2000) = 2
      ∧ (Control.main fullBus zeroAlloc (World.init []) ⟨1, 2, 0x0100, 0, 0, 0, 0xc0, 0x06⟩
          (some 1)).1.log =
        [.libusb_set_auto_detach_kernel_driver 1 1,
          .libusb_control_transfer 1 0xc0 0x06 0x0100 0 [0, 0] 2 2000, .libusb_close 1]
      ∧ (Control.main fullBus zeroAlloc (World.init []) ⟨1, 2, 0x0100, 0, 0, 0, 0xc0, 0x06⟩
          (some 1)).2 = 2 := by
  decide

end UsbTools
